import Mathlib

set_option maxRecDepth 8000

/-!
Verification of the racode-reviewer core against its specification.

The Python sources are shallowly embedded: strings are Lean `String`s
handled through structurally recursive helpers (so every definition is
kernel-computable), fallible operations are `Except`/`Option`, and the
external collaborators (file system, chunk extractor, embedder, vector
store) are explicit function-valued parameters, as §6 of the spec
prescribes.
-/

/-! ## String primitives

Python's `str.split(sep)`, `str.strip()`, `str.startswith`, `str.endswith`,
`sep.join`, `str.replace` and `int()` are modelled below.  `splitOnCL` is a
fuel-indexed structural recursion over the character list; with fuel
`l.length + 1` it computes exactly Python's left-to-right non-overlapping
split for a non-empty separator.
-/

def consHead (x : Char) : List (List Char) → List (List Char)
  | [] => [[x]]
  | t :: ts => (x :: t) :: ts

def splitOnCL (sep : List Char) : Nat → List Char → List (List Char)
  | 0, l => [l]
  | fuel + 1, l =>
    if sep.isPrefixOf l then
      [] :: splitOnCL sep fuel (l.drop sep.length)
    else
      match l with
      | [] => [[]]
      | x :: xs => consHead x (splitOnCL sep fuel xs)

/-- Model of Python `s.split(sep)` for a non-empty separator `sep`. -/
def pySplit (s sep : String) : List String :=
  (splitOnCL sep.data (s.data.length + 1) s.data).map String.mk

/-- Model of Python `s.strip()` (whitespace stripped from both ends). -/
def pyStrip (s : String) : String :=
  ⟨((s.data.dropWhile Char.isWhitespace).reverse.dropWhile Char.isWhitespace).reverse⟩

/-- Model of Python `s.startswith(pre)`. -/
def strStartsWith (s pre : String) : Bool :=
  pre.data.isPrefixOf s.data

/-- Model of Python `s.endswith(suf)`. -/
def strEndsWith (s suf : String) : Bool :=
  suf.data.isSuffixOf s.data

/-- Model of Python `s[1:]`. -/
def strDrop1 (s : String) : String :=
  ⟨s.data.drop 1⟩

/-- Model of Python `sep.join(parts)`. -/
def strJoin (sep : String) : List String → String
  | [] => ""
  | x :: xs => xs.foldl (fun acc y => acc ++ sep ++ y) x

/-- Model of Python `s.replace(pat, repl)` for non-empty `pat`
(replace-all equals splitting on `pat` and re-joining with `repl`). -/
def pyReplace (s pat repl : String) : String :=
  strJoin repl (pySplit s pat)

def digitsVal (l : List Char) : Nat :=
  l.foldl (fun acc c => acc * 10 + (c.toNat - 48)) 0

/-- Model of Python `int(s)`: optional surrounding whitespace, optional
sign, then a non-empty run of decimal digits; anything else raises
`ValueError`, modelled as `none`.  (Underscore digit grouping is not
modelled; it never occurs in unified-diff hunk headers.) -/
def pyInt (s : String) : Option Int :=
  match (pyStrip s).data with
  | [] => none
  | '+' :: rest =>
    if rest ≠ [] ∧ rest.all Char.isDigit then some (Int.ofNat (digitsVal rest)) else none
  | '-' :: rest =>
    if rest ≠ [] ∧ rest.all Char.isDigit then some (-(Int.ofNat (digitsVal rest))) else none
  | l =>
    if l.all Char.isDigit then some (Int.ofNat (digitsVal l)) else none

/-- Model of Python `os.path.join(a, b)` on POSIX paths. -/
def pyJoin (a b : String) : String :=
  if strStartsWith b "/" then b
  else if a = "" then b
  else if strEndsWith a "/" then a ++ b
  else a ++ "/" ++ b

/-- Model of Python `s.splitlines()` restricted to `\n` boundaries (the
only line terminator produced by `git diff --name-status`). -/
def pySplitlines (s : String) : List String :=
  if s = "" then []
  else if strEndsWith s "\n" then (pySplit s "\n").dropLast
  else pySplit s "\n"

/-- Number of non-overlapping occurrences of the non-empty substring `sep`
in `s`, expressed through the split (Python: `len(s.split(sep)) - 1`). -/
def countOccurrences (s sep : String) : Nat :=
  (pySplit s sep).length - 1

/-! ## DiffParser (src/app/diff_parser.py) -/

/-- `FileDiff` from src/app/diff_parser.py.  The Python `dict[int, int]`
`line_mapping` is modelled as an insertion-ordered association list with
overwriting insertion (`insertMapping`). -/
structure FileDiff where
  path : String
  content : String
  line_mapping : List (Int × Nat)
  deriving DecidableEq, Repr

/-- Overwriting insertion into the association-list model of a Python dict:
`d[k] = v`. -/
def insertMapping (m : List (Int × Nat)) (k : Int) (v : Nat) : List (Int × Nat) :=
  if m.any (fun p => p.1 == k) then
    m.map (fun p => if p.1 == k then (k, v) else p)
  else
    m ++ [(k, v)]

/-- State of the per-line loop of `parse_diff`:
`position_in_diff`, `current_new_line_num`, and the mapping built so far. -/
structure LoopState where
  pos : Nat
  cur : Int
  mapping : List (Int × Nat)

/-- One iteration of the `for line in lines` loop of `parse_diff`
(src/app/diff_parser.py lines 32-42).  A missing token or a non-numeric
hunk start is the `IndexError`/`ValueError` that the enclosing `try`
catches. -/
def processLine (st : LoopState) (line : String) : Except String LoopState :=
  if strStartsWith line "@@" then
    match (pySplit line " ").get? 2 with
    | none => Except.error "IndexError"
    | some hunk_info =>
      match pyInt (strDrop1 ((pySplit hunk_info ",").headD "")) with
      | none => Except.error "ValueError"
      | some n => Except.ok ⟨st.pos + 1, n, st.mapping⟩
  else if strStartsWith line "+" && !(strStartsWith line "+++") then
    Except.ok ⟨st.pos + 1, st.cur + 1, insertMapping st.mapping st.cur (st.pos + 1)⟩
  else if strStartsWith line " " && !(strStartsWith line "---") then
    Except.ok ⟨st.pos + 1, st.cur + 1, st.mapping⟩
  else
    Except.ok ⟨st.pos + 1, st.cur, st.mapping⟩

/-- The whole per-segment line loop. -/
def runLines (st : LoopState) : List String → Except String LoopState
  | [] => Except.ok st
  | line :: rest =>
    match processLine st line with
    | Except.error e => Except.error e
    | Except.ok st1 => runLines st1 rest

/-- Body of the per-segment `try` block of `parse_diff`: extract the `b/`
path from the first line, rebuild the content, run the line loop. -/
def parseSegment (seg : String) : Except String FileDiff :=
  match (pySplit ((pySplit seg "\n").headD "") " b/").get? 1 with
  | none => Except.error "IndexError"
  | some p =>
    match runLines ⟨0, 0, []⟩ (pySplit seg "\n") with
    | Except.error e => Except.error e
    | Except.ok st => Except.ok ⟨pyStrip p, "diff --git " ++ seg, st.mapping⟩

/-- `parse_diff` from src/app/diff_parser.py: split on `"diff --git "`,
discard the first segment, parse each remaining segment, and drop the
segments whose parse raises (the `except (IndexError, ValueError)`). -/
def parse_diff (diff_text : String) : List FileDiff :=
  ((pySplit diff_text "diff --git ").tail).filterMap fun seg =>
    match parseSegment seg with
    | Except.ok fd => some fd
    | Except.error _ => none

/-! ## Table-name transform (src/app/utils/general_utils.py) -/

/-- `repo_url_to_table_name` from src/app/utils/general_utils.py. -/
def repo_url_to_table_name (url : String) : String :=
  let repo_name := pyReplace (strJoin "/" ((pySplit url "/").drop ((pySplit url "/").length - 2))) ".git" ""
  pyReplace repo_name "/" "_"

def asciiLowerChar (c : Char) : Char :=
  if 'A' ≤ c ∧ c ≤ 'Z' then Char.ofNat (c.toNat + 32) else c

def asciiLower (s : String) : String :=
  ⟨s.data.map asciiLowerChar⟩

/-- Modelled from the spec: the table-name transform exactly as claim C8
states it — the lower-cased owner/repo segment of the URL with the `.git`
suffix stripped and slashes replaced. -/
def claimed_table_name (url : String) : String :=
  let seg := strJoin "/" ((pySplit url "/").drop ((pySplit url "/").length - 2))
  let stripped := if strEndsWith seg ".git" then ⟨seg.data.take (seg.data.length - 4)⟩ else seg
  asciiLower ⟨stripped.data.map (fun c => if c = '/' then '_' else c)⟩

/-- Modelled from the spec, as amended: the owner/repo segment (last two
`/`-separated fields joined with `/`) with every occurrence of `.git`
removed and `/` replaced by `_`, preserving case. -/
def amended_table_name (url : String) : String :=
  pyReplace (pyReplace (strJoin "/" ((pySplit url "/").drop ((pySplit url "/").length - 2))) ".git" "") "/" "_"

/-! ## Claim C2 — the concrete scenario diff -/

/-- The exact input diff text of claim C2. -/
def c2DiffText : String :=
  "diff --git a/x.py b/x.py\n--- a/x.py\n+++ b/x.py\n@@ -1,2 +1,3 @@\n def f():\n+    return 1\n     pass\n"

/-- C2 counterexample: on the claimed input, `parse_diff` returns one
`FileDiff` whose `line_mapping` is `{2: 6}`, not the claimed `{2: 5}` —
the claim forgets that the context line ` def f():` (position 5) also
counts, so the `+    return 1` line sits at position 6. -/
theorem c2_scenario_counterexample :
    (parse_diff c2DiffText).map FileDiff.line_mapping = [[(2, 6)]] ∧
    [[((2 : Int), (6 : Nat))]] ≠ [[(2, 5)]] := by
  constructor
  · decide
  · decide

/-- C2 (corrected): for the input diff text of the claim, `parse_diff`
returns exactly one `FileDiff` whose path is `"x.py"`, whose content is
the whole input, and whose `line_mapping` is `{2: 6}` (positions count
`diff --git…`=1, `---`=2, `+++`=3, `@@…`=4, ` def f():`=5,
`+    return 1`=6). -/
theorem c2_scenario_amended :
    parse_diff c2DiffText = [⟨"x.py", c2DiffText, [(2, 6)]⟩] := by
  decide

/-! ## Claim C5 — totality of the diff parser -/

/-- C5 (confirmed): `parse_diff` is a total function (the only two
exception classes its body can raise, `IndexError` and `ValueError`, are
caught per segment and the segment is dropped), the number of returned
`FileDiff` entries is at most the number of occurrences of
`"diff --git "` in the input, and the empty diff text yields the empty
list. -/
theorem c5_parse_diff_total (d : String) :
    (parse_diff d).length ≤ countOccurrences d "diff --git " ∧
    parse_diff "" = [] := by
  refine ⟨?_, by decide⟩
  unfold parse_diff countOccurrences
  calc (((pySplit d "diff --git ").tail).filterMap _).length
      ≤ ((pySplit d "diff --git ").tail).length := List.length_filterMap_le _ _
    _ = (pySplit d "diff --git ").length - 1 := by rw [List.length_tail]

/-! ## Claim C8 — table-name transform -/

/-- C8 counterexample: `repo_url_to_table_name` neither lower-cases nor
restricts the `.git` removal to a suffix; on the URL below the code
produces `"Ownerhub_Repo"` (case preserved, the interior `.git` of
`Owner.github` removed as well) while the claim's transform produces
`"owner.github_repo"`. -/
theorem c8_table_name_counterexample :
    repo_url_to_table_name "https://github.com/Owner.github/Repo.git" = "Ownerhub_Repo" ∧
    claimed_table_name "https://github.com/Owner.github/Repo.git" = "owner.github_repo" ∧
    repo_url_to_table_name "https://github.com/Owner.github/Repo.git" ≠
      claimed_table_name "https://github.com/Owner.github/Repo.git" := by
  refine ⟨by decide, by decide, by decide⟩

/-- C8 (corrected): for every repository URL, the index-table name equals
the owner/repo segment of the URL (the last two `/`-separated fields
joined with `/`) with every occurrence of `.git` removed and slashes
replaced by underscores, preserving case; being a pure function of the
URL, the transform is stable and deterministic. -/
theorem c8_table_name_amended (url : String) :
    repo_url_to_table_name url = amended_table_name url := by
  rfl

/-! ## Claim C6 — line-mapping soundness

Supporting lemmas: the split of a per-file block (`"diff --git " ++ seg`)
by newline has the same length and the same tail as the split of the raw
segment, and the line loop only records positions of `+`-lines.
-/

lemma consHead_ne_nil (x : Char) (r : List (List Char)) : consHead x r ≠ [] := by
  cases r <;> simp [consHead]

lemma splitOnCL_ne_nil (sep : List Char) (fuel : Nat) (l : List Char) :
    splitOnCL sep fuel l ≠ [] := by
  cases fuel with
  | zero => simp [splitOnCL]
  | succ n =>
    unfold splitOnCL
    split
    · simp
    · cases l with
      | nil => simp
      | cons x xs => exact consHead_ne_nil x _

def prependHead (p : List Char) : List (List Char) → List (List Char)
  | [] => [p]
  | t :: ts => (p ++ t) :: ts

lemma splitOnCL_succ_cons (sep : List Char) (fuel : Nat) (x : Char) (xs : List Char) :
    splitOnCL sep (fuel + 1) (x :: xs) =
      if sep.isPrefixOf (x :: xs) then
        [] :: splitOnCL sep fuel ((x :: xs).drop sep.length)
      else consHead x (splitOnCL sep fuel xs) := rfl

lemma splitOnCL_single_prepend (c : Char) (p : List Char) (hp : ∀ x ∈ p, x ≠ c)
    (fuel : Nat) (l : List Char) :
    splitOnCL [c] (p.length + fuel) (p ++ l) = prependHead p (splitOnCL [c] fuel l) := by
  induction p with
  | nil =>
    simp only [List.length_nil, Nat.zero_add, List.nil_append]
    cases h : splitOnCL [c] fuel l with
    | nil => exact absurd h (splitOnCL_ne_nil _ _ _)
    | cons t ts => simp [prependHead]
  | cons x p ih =>
    have hx : x ≠ c := hp x (List.mem_cons_self x p)
    have hp' : ∀ y ∈ p, y ≠ c := fun y hy => hp y (List.mem_cons_of_mem x hy)
    have harith : (x :: p).length + fuel = (p.length + fuel) + 1 := by
      simp [List.length_cons]
      omega
    have hpre : [c].isPrefixOf (x :: (p ++ l)) = false := by
      simp [List.isPrefixOf]
      exact fun h => absurd h.symm hx
    rw [harith, List.cons_append, splitOnCL_succ_cons]
    simp only [hpre, Bool.false_eq_true, if_false]
    rw [ih hp']
    cases h : splitOnCL [c] fuel l with
    | nil => exact absurd h (splitOnCL_ne_nil _ _ _)
    | cons t ts => simp [prependHead, consHead]

lemma pySplit_diffgit_prepend (seg : String) :
    ∃ t ts, pySplit seg "\n" = String.mk t :: ts ∧
      pySplit ("diff --git " ++ seg) "\n" =
        String.mk ("diff --git ".data ++ t) :: ts := by
  obtain ⟨t, ts', hts⟩ : ∃ t ts',
      splitOnCL ['\n'] (seg.data.length + 1) seg.data = t :: ts' := by
    cases h : splitOnCL ['\n'] (seg.data.length + 1) seg.data with
    | nil => exact absurd h (splitOnCL_ne_nil _ _ _)
    | cons a b => exact ⟨a, b, rfl⟩
  refine ⟨t, ts'.map String.mk, ?_, ?_⟩
  · unfold pySplit
    rw [show ("\n" : String).data = ['\n'] from rfl, hts]
    simp
  · unfold pySplit
    rw [show ("\n" : String).data = ['\n'] from rfl, String.data_append]
    rw [show ("diff --git ".data ++ seg.data).length + 1
        = "diff --git ".data.length + (seg.data.length + 1) by
      rw [List.length_append, Nat.add_assoc]]
    rw [splitOnCL_single_prepend '\n' "diff --git ".data (by decide), hts]
    simp [prependHead]

def plusLineB (line : String) : Bool :=
  strStartsWith line "+" && !(strStartsWith line "+++")

/-- Invariant carried through the `parse_diff` line loop: every mapping
entry points at a position between 1 and `bound`, and the line of the
block at that (1-based) position is a `+` line that is not a `+++`
header. -/
def mappingOk (full : List String) (bound : Nat) (m : List (Int × Nat)) : Prop :=
  ∀ kv ∈ m, 1 ≤ kv.2 ∧ kv.2 ≤ bound ∧
    ∃ line, full.get? (kv.2 - 1) = some line ∧ plusLineB line = true

lemma mem_insertMapping {kv : Int × Nat} {m : List (Int × Nat)} {k : Int} {v : Nat}
    (h : kv ∈ insertMapping m k v) : kv ∈ m ∨ kv = (k, v) := by
  unfold insertMapping at h
  split at h
  · rcases List.mem_map.mp h with ⟨p, hp, he⟩
    by_cases hk : (p.1 == k) = true
    · right
      rw [if_pos hk] at he
      exact he.symm
    · left
      rw [if_neg hk] at he
      exact he ▸ hp
  · rcases List.mem_append.mp h with h | h
    · exact Or.inl h
    · right
      simpa using h

lemma processLine_ok_cases {st : LoopState} {line : String} {st1 : LoopState}
    (h : processLine st line = Except.ok st1) :
    st1.pos = st.pos + 1 ∧
      (st1.mapping = st.mapping ∨
        (plusLineB line = true ∧
          st1.mapping = insertMapping st.mapping st.cur (st.pos + 1))) := by
  unfold processLine at h
  split at h
  · split at h
    · exact absurd h (by simp)
    · split at h
      · exact absurd h (by simp)
      · cases h
        exact ⟨rfl, Or.inl rfl⟩
  · split at h
    · cases h
      exact ⟨rfl, Or.inr ⟨by assumption, rfl⟩⟩
    · split at h
      · cases h
        exact ⟨rfl, Or.inl rfl⟩
      · cases h
        exact ⟨rfl, Or.inl rfl⟩

lemma runLines_sound (full : List String) :
    ∀ (rest : List String) (st : LoopState),
      st.pos + rest.length = full.length →
      full.drop st.pos = rest →
      mappingOk full st.pos st.mapping →
      ∀ st', runLines st rest = Except.ok st' →
        mappingOk full full.length st'.mapping := by
  intro rest
  induction rest with
  | nil =>
    intro st hpos _ hinv st' hrun
    have hst : st' = st := by
      simpa [runLines] using hrun.symm
    subst hst
    have hb : st'.pos = full.length := by simpa using hpos
    intro kv hkv
    obtain ⟨h1, h2, h3⟩ := hinv kv hkv
    exact ⟨h1, hb ▸ h2, h3⟩
  | cons line rest ih =>
    intro st hpos hdrop hinv st' hrun
    rw [runLines] at hrun
    cases hpl : processLine st line with
    | error e =>
      rw [hpl] at hrun
      exact absurd hrun (by simp)
    | ok st1 =>
      rw [hpl] at hrun
      obtain ⟨hpos1, hmap1⟩ := processLine_ok_cases hpl
      have hline : full.get? st.pos = some line := by
        have hh := List.head?_drop full st.pos
        rw [hdrop] at hh
        rw [List.get?_eq_getElem?]
        simpa using hh.symm
      have hdrop1 : full.drop st1.pos = rest := by
        rw [hpos1]
        have := List.drop_drop 1 st.pos full
        rw [hdrop] at this
        simpa using this.symm
      have hpos1' : st1.pos + rest.length = full.length := by
        rw [hpos1]
        simp only [List.length_cons] at hpos
        omega
      have hinv1 : mappingOk full st1.pos st1.mapping := by
        intro kv hkv
        rcases hmap1 with hsame | ⟨hplus, hins⟩
        · rw [hsame] at hkv
          obtain ⟨h1, h2, h3⟩ := hinv kv hkv
          refine ⟨h1, ?_, h3⟩
          omega
        · rw [hins] at hkv
          rcases mem_insertMapping hkv with hold | hnew
          · obtain ⟨h1, h2, h3⟩ := hinv kv hold
            refine ⟨h1, ?_, h3⟩
            omega
          · subst hnew
            refine ⟨by simp, by simp [hpos1], line, ?_, hplus⟩
            simpa using hline
      exact ih st1 hpos1' hdrop1 hinv1 st' hrun

lemma parseSegment_sound {seg : String} {fd : FileDiff}
    (h : parseSegment seg = Except.ok fd) :
    fd.content = "diff --git " ++ seg ∧
      mappingOk (pySplit seg "\n") (pySplit seg "\n").length fd.line_mapping := by
  unfold parseSegment at h
  split at h
  · exact absurd h (by simp)
  · split at h
    · exact absurd h (by simp)
    · cases h
      refine ⟨rfl, ?_⟩
      exact runLines_sound (pySplit seg "\n") (pySplit seg "\n") ⟨0, 0, []⟩
        (by simp) (by simp) (by intro kv hkv; simp at hkv) _ (by assumption)

lemma mem_parse_diff {d : String} {fd : FileDiff} (h : fd ∈ parse_diff d) :
    ∃ seg, parseSegment seg = Except.ok fd := by
  unfold parse_diff at h
  rcases List.mem_filterMap.mp h with ⟨seg, _, hseg⟩
  refine ⟨seg, ?_⟩
  revert hseg
  cases hps : parseSegment seg with
  | error e => simp
  | ok fd' =>
    intro hseg
    simp only [Option.some.injEq] at hseg
    rw [hseg]

/-- Modelled from the spec: claim C6 exactly as stated — for every
`FileDiff` and every `line_mapping` entry `(new_line, pos)`, `pos` lies
between 1 and the number of lines of `content` split by newline, and the
line of `content` at 1-based index `pos` starts with `+` and not `+++`. -/
def c6ClaimHolds (d : String) : Bool :=
  (parse_diff d).all fun fd =>
    fd.line_mapping.all fun kv =>
      decide (1 ≤ kv.2) && decide (kv.2 ≤ (pySplit fd.content "\n").length) &&
        (match (pySplit fd.content "\n").get? (kv.2 - 1) with
         | some line => strStartsWith line "+" && !(strStartsWith line "+++")
         | none => false)

/-- C6 counterexample: on the (degenerate but accepted) diff text
`"diff --git +q b/x.py"` the parser records the entry `(0, 1)`, yet line 1
of `content` is `"diff --git +q b/x.py"`, which does not start with `+` —
the `diff --git ` prefix that `content` restores shields position 1.  So
the claim is false as universally stated. -/
theorem c6_line_mapping_counterexample :
    c6ClaimHolds "diff --git +q b/x.py" = false := by decide

/-- C6 (corrected): for every diff text `d`, every `FileDiff` returned by
`parse_diff d`, and every entry `(new_line, pos)` of its `line_mapping`,
`pos` lies between 1 and the number of lines of `content` split by
newline, and whenever `pos ≥ 2` the line of `content` at 1-based index
`pos` starts with `+` and does not start with `+++` (at `pos = 1` the
recorded line is the first segment line, which carries the restored
`diff --git ` prefix inside `content`). -/
theorem c6_line_mapping_sound_amended (d : String) (fd : FileDiff)
    (hfd : fd ∈ parse_diff d) (kv : Int × Nat) (hkv : kv ∈ fd.line_mapping) :
    1 ≤ kv.2 ∧ kv.2 ≤ (pySplit fd.content "\n").length ∧
      (2 ≤ kv.2 → ∃ line, (pySplit fd.content "\n").get? (kv.2 - 1) = some line ∧
        strStartsWith line "+" = true ∧ strStartsWith line "+++" = false) := by
  obtain ⟨seg, hseg⟩ := mem_parse_diff hfd
  obtain ⟨hcontent, hmapok⟩ := parseSegment_sound hseg
  obtain ⟨h1, h2, line, hget, hplus⟩ := hmapok kv hkv
  obtain ⟨t, ts, hsplitseg, hsplitcontent⟩ := pySplit_diffgit_prepend seg
  rw [hcontent, hsplitcontent]
  rw [hsplitseg] at hget h2
  have hplus2 : strStartsWith line "+" = true ∧ strStartsWith line "+++" = false := by
    have h := hplus
    unfold plusLineB at h
    simp only [Bool.and_eq_true, Bool.not_eq_true'] at h
    exact h
  refine ⟨h1, by simpa using h2, ?_⟩
  intro hv2
  obtain ⟨k, hk⟩ : ∃ k, kv.2 = k + 2 := ⟨kv.2 - 2, by omega⟩
  refine ⟨line, ?_, hplus2⟩
  rw [hk] at hget ⊢
  simpa using hget

/-- Witness for C6 (corrected), instantiated at the concrete scenario
diff of claim C2, whose single `FileDiff` has the mapping entry `(2, 6)`. -/
theorem c6_line_mapping_sound_amended_witness :
    1 ≤ ((2, 6) : Int × Nat).2 ∧
      ((2, 6) : Int × Nat).2 ≤ (pySplit (FileDiff.mk "x.py" c2DiffText [(2, 6)]).content "\n").length ∧
      (2 ≤ ((2, 6) : Int × Nat).2 →
        ∃ line, (pySplit (FileDiff.mk "x.py" c2DiffText [(2, 6)]).content "\n").get?
            (((2, 6) : Int × Nat).2 - 1) = some line ∧
          strStartsWith line "+" = true ∧ strStartsWith line "+++" = false) :=
  c6_line_mapping_sound_amended c2DiffText ⟨"x.py", c2DiffText, [(2, 6)]⟩
    (by decide) (2, 6) (by decide)

/-! ## ChangeSetDetector (src/app/incremental_indexer.py and
src/app/indexing/incremental_indexer.py, `get_changed_files`)

The version-control collaborator is modelled as the outcome of
`repo.git.diff("--name-status", old, new)`: either the diff text, or the
Python exception it raised (`GitCommandError`, or anything else). -/

/-- The change-set dictionary with keys `added`, `modified`, `deleted`. -/
structure ChangeSet where
  added : List String
  modified : List String
  deleted : List String
  deriving DecidableEq, Repr

/-- Outcome of a collaborator call that may raise: a `GitCommandError`
with a message, or any other exception. -/
inductive PyExc
  | gitCommandError (msg : String)
  | otherError (msg : String)
  deriving DecidableEq, Repr

/-- The application exceptions from src/app/core/exceptions.py that the
indexing-package modules raise, carrying their constructor arguments. -/
inductive IndexErr
  | repositoryIndexingError (repo : String) (reason : String)
  | vectorDBError (operation : String) (reason : String)
  deriving DecidableEq, Repr

/-- Classification of one `--name-status` line as in the legacy
`get_changed_files` (src/app/incremental_indexer.py lines 52-72):
skip blank lines, split on tab, strip status and path, keep only `.py`
paths, classify by the first character of the status. -/
def nameStatusStep (cs : ChangeSet) (line : String) : ChangeSet :=
  if pyStrip line = "" then cs
  else
    if (pySplit line "\t").length < 2 then cs
    else
      if !(strEndsWith (pyStrip (((pySplit line "\t").get? 1).getD "")) ".py") then cs
      else
        if strStartsWith (pyStrip ((pySplit line "\t").headD "")) "A" then
          { cs with added := cs.added ++ [pyStrip (((pySplit line "\t").get? 1).getD "")] }
        else if strStartsWith (pyStrip ((pySplit line "\t").headD "")) "M" then
          { cs with modified := cs.modified ++ [pyStrip (((pySplit line "\t").get? 1).getD "")] }
        else if strStartsWith (pyStrip ((pySplit line "\t").headD "")) "D" then
          { cs with deleted := cs.deleted ++ [pyStrip (((pySplit line "\t").get? 1).getD "")] }
        else cs

/-- `get_changed_files` from src/app/incremental_indexer.py: on any
exception from the diff command it logs and returns the empty change set
(the function itself never raises). -/
def get_changed_files (diffResult : Except PyExc String) : ChangeSet :=
  match diffResult with
  | Except.error _ => ⟨[], [], []⟩
  | Except.ok text => (pySplitlines text).foldl nameStatusStep ⟨[], [], []⟩

/-- Classification of one `--name-status` line as in the indexing-package
`get_changed_files` (src/app/indexing/incremental_indexer.py lines 57-79):
the whole line is stripped first, then split on tab; status and path are
taken verbatim. -/
def nameStatusStepIx (cs : ChangeSet) (line : String) : ChangeSet :=
  if pyStrip line = "" then cs
  else
    if (pySplit (pyStrip line) "\t").length < 2 then cs
    else
      if !(strEndsWith (((pySplit (pyStrip line) "\t").get? 1).getD "") ".py") then cs
      else
        if strStartsWith ((pySplit (pyStrip line) "\t").headD "") "A" then
          { cs with added := cs.added ++ [((pySplit (pyStrip line) "\t").get? 1).getD ""] }
        else if strStartsWith ((pySplit (pyStrip line) "\t").headD "") "M" then
          { cs with modified := cs.modified ++ [((pySplit (pyStrip line) "\t").get? 1).getD ""] }
        else if strStartsWith ((pySplit (pyStrip line) "\t").headD "") "D" then
          { cs with deleted := cs.deleted ++ [((pySplit (pyStrip line) "\t").get? 1).getD ""] }
        else cs

/-- `get_changed_files` from src/app/indexing/incremental_indexer.py: on a
failing diff command it raises `RepositoryIndexingError(working_dir, …)`
instead of returning lists. -/
def get_changed_files_ix (workingDir : String) (diffResult : Except PyExc String) :
    Except IndexErr ChangeSet :=
  match diffResult with
  | Except.ok text => Except.ok ((pySplitlines text).foldl nameStatusStepIx ⟨[], [], []⟩)
  | Except.error (PyExc.gitCommandError m) =>
    Except.error (IndexErr.repositoryIndexingError workingDir
      ("Git command error when getting changed files: " ++ m))
  | Except.error (PyExc.otherError m) =>
    Except.error (IndexErr.repositoryIndexingError workingDir
      ("Unexpected error when getting changed files: " ++ m))

/-! ## ChunkSync, legacy variant (src/app/incremental_indexer.py)

The vector-store table is the list of its rows; the chunk extractor,
embedder and file system are collaborator functions (spec §6), and the
store operations that can raise are driven by explicit failure flags. -/

/-- A row of the legacy `CodeChunkSchema` (src/app/vector_store.py). -/
structure CodeChunkRow where
  id : String
  repo_url : String
  file_path : String
  code_chunk : String
  embedding : List Int
  start_line : Int
  end_line : Int
  deriving DecidableEq, Repr

/-- A chunk dictionary as produced by `parse_and_extract_chunks`
(src/app/indexing/code_parser.py lines 161-171), restricted to the keys
the indexer reads. -/
structure RawChunk where
  id : String
  file_path : String
  code : String
  start_line : Int
  end_line : Int
  deriving DecidableEq, Repr

/-- Outcome of `os.path.exists` plus `open(...).read()` for one path:
the file is missing, readable, or reading raises (caught by the per-file
`except`). -/
inductive FileState
  | missing
  | readable (content : String)
  | readErr
  deriving DecidableEq, Repr

/-- The collaborators of the legacy insertion phase: file system, chunk
extractor (`parse_and_extract_chunks(file_path, content)`, which may
raise), and `get_embedding`, which returns `None` on failure and never
raises. -/
structure CollabLegacy where
  fs : String → FileState
  extract : String → String → Except String (List RawChunk)
  embed : String → Option (List Int)

/-- The rows one file contributes to `all_chunks_to_add` in
`process_and_add_file_chunks` (src/app/incremental_indexer.py lines
155-187): a missing file, a read error, or an extractor exception
contributes nothing; a chunk whose embedding is `None` is skipped. -/
def chunkRowsForFile (c : CollabLegacy) (repo_url localPath fp : String) :
    List CodeChunkRow :=
  match c.fs (pyJoin localPath fp) with
  | FileState.missing => []
  | FileState.readErr => []
  | FileState.readable content =>
    match c.extract fp content with
    | Except.error _ => []
    | Except.ok chunks =>
      chunks.filterMap fun ch =>
        (c.embed ch.code).map fun emb =>
          { id := ch.id, repo_url := repo_url, file_path := ch.file_path,
            code_chunk := ch.code, embedding := emb,
            start_line := ch.start_line, end_line := ch.end_line }

/-- Result of the legacy insertion phase: the table after the call, the
returned count, and the trace of `db_table.add` invocations (each entry
is the batch passed to one call). -/
structure ProcResult where
  table : List CodeChunkRow
  added : Nat
  trace : List (List CodeChunkRow)
  deriving DecidableEq, Repr

/-- `process_and_add_file_chunks` from src/app/incremental_indexer.py
(lines 129-202): accumulate the rows of every file, then issue one batch
`add`; an empty batch skips the `add` and returns 0; a failing `add`
(`addFails`) is caught and returns 0. -/
def process_and_add_file_chunks (c : CollabLegacy) (addFails : Bool)
    (t : List CodeChunkRow) (repo_url localPath : String) (files : List String) :
    ProcResult :=
  if files = [] then ⟨t, 0, []⟩
  else
    let all_chunks := files.foldl (fun acc fp => acc ++ chunkRowsForFile c repo_url localPath fp) []
    if all_chunks = [] then ⟨t, 0, []⟩
    else if addFails then ⟨t, 0, [all_chunks]⟩
    else ⟨t ++ all_chunks, all_chunks.length, [all_chunks]⟩

/-- Failure injection for the three store operations of the legacy
`delete_file_chunks_from_db`: the pre-count, the delete, and the
post-count, each of which the source wraps in one `try`. -/
structure DeleteEnv where
  countBeforeFails : Bool
  deleteFails : Bool
  countAfterFails : Bool
  deriving DecidableEq, Repr

/-- Row predicate for the delete filter
`repo_url = R AND (file_path = P1 OR …)` built at
src/app/incremental_indexer.py lines 105-108. -/
def deleteFilter (repo_url : String) (paths : List String) (r : CodeChunkRow) : Bool :=
  r.repo_url == repo_url && paths.any (fun p => r.file_path == p)

/-- `delete_file_chunks_from_db` from src/app/incremental_indexer.py
(lines 87-126): empty path list returns 0 immediately; any exception from
the count, the delete, or the re-count is caught and 0 is returned (if
the pre-count already raised, the delete never executed and the table is
unchanged; if the re-count raised, the delete had already happened). -/
def delete_file_chunks_from_db (env : DeleteEnv) (t : List CodeChunkRow)
    (repo_url : String) (paths : List String) : List CodeChunkRow × Int :=
  if paths = [] then (t, 0)
  else if env.countBeforeFails then (t, 0)
  else
    let count_before := t.countP (deleteFilter repo_url paths)
    if env.deleteFails then (t, 0)
    else
      let t1 := t.filter (fun r => !(deleteFilter repo_url paths r))
      if env.countAfterFails then (t1, 0)
      else (t1, (count_before : Int) - (t1.countP (deleteFilter repo_url paths) : Int))

/-- Result of the sync core: the legacy
`incremental_index_repository` always reports `status == "success"` once
initialization and clone/pull have succeeded. -/
structure SyncResult where
  status : String
  table : List CodeChunkRow
  chunks_deleted : Int
  chunks_added : Nat
  deriving DecidableEq, Repr

/-- Steps 4-5 of the legacy `incremental_index_repository`
(src/app/incremental_indexer.py lines 283-317): delete the chunks of
`deleted + modified`, re-insert the chunks of `added + modified`, report
success. -/
def incremental_index_repository_core (c : CollabLegacy) (denv : DeleteEnv)
    (addFails : Bool) (t : List CodeChunkRow) (repo_url localPath : String)
    (changed : ChangeSet) : SyncResult :=
  let d := delete_file_chunks_from_db denv t repo_url (changed.deleted ++ changed.modified)
  let p := process_and_add_file_chunks c addFails d.1 repo_url localPath
    (changed.added ++ changed.modified)
  ⟨"success", p.table, d.2, p.added⟩

/-! ## ChunkSync, indexing-package variant
(src/app/indexing/incremental_indexer.py, `process_and_add_file_chunks`) -/

/-- A chunk object as read by the indexing-package insertion phase
(fields `content`, `symbol_type`, `symbol_name`, `start_line`,
`end_line`). -/
structure RawChunkIx where
  content : String
  symbol_type : String
  symbol_name : String
  start_line : Int
  end_line : Int
  deriving DecidableEq, Repr

/-- A row of the indexing-package `CodeChunkSchema` as assembled at
src/app/indexing/incremental_indexer.py lines 233-242.  Modelled from the
spec for the schema itself (`app.storage.vector_store` is not under
src/); the field list is exactly the constructor-call at those lines. -/
structure CodeChunkRowIx where
  repo_url : String
  file_path : String
  start_line : Int
  end_line : Int
  content : String
  symbol_type : String
  symbol_name : String
  embedding : List Int
  deriving DecidableEq, Repr

/-- Outcome of reading one file in the indexing-package variant: missing
(skipped silently), readable, `UnicodeDecodeError` (skipped silently), or
`IOError` with a message (recorded in the error list). -/
inductive FileStateIx
  | missing
  | readable (content : String)
  | unicodeErr
  | ioErr (msg : String)
  deriving DecidableEq, Repr

/-- Collaborators of the indexing-package insertion phase.  `parse` is
`parse_and_extract_chunks(file_content, file_path)` exactly as the source
calls it (content first); `embed` may raise, which the per-chunk `try`
absorbs without recording an error. -/
structure CollabIx where
  fs : String → FileStateIx
  parse : String → String → Except String (List RawChunkIx)
  embed : String → Except String (List Int)

/-- Accumulator of the per-file loop of the indexing-package
`process_and_add_file_chunks`. -/
structure StIx where
  table : List CodeChunkRowIx
  trace : List (List CodeChunkRowIx)
  errors : List String
  added : Nat
  deriving DecidableEq, Repr

/-- One iteration of the per-file loop
(src/app/indexing/incremental_indexer.py lines 192-267): each file that
produced rows issues its own `db_table.add(db_rows)` call.  `addFail`
injects a failing `add` with the exception text that the source appends
to the error list. -/
def stepIx (c : CollabIx) (addFail : Option String) (repo_url localPath : String)
    (st : StIx) (fp : String) : StIx :=
  match c.fs (pyJoin localPath fp) with
  | FileStateIx.missing => st
  | FileStateIx.unicodeErr => st
  | FileStateIx.ioErr m =>
    { st with errors := st.errors ++ ["IO error reading file " ++ fp ++ ": " ++ m] }
  | FileStateIx.readable content =>
    match c.parse content fp with
    | Except.error e =>
      { st with errors := st.errors ++ ["Error parsing file " ++ fp ++ ": " ++ e] }
    | Except.ok [] => st
    | Except.ok chunks =>
      let db_rows := chunks.filterMap fun ch =>
        match c.embed ch.content with
        | Except.error _ => none
        | Except.ok emb => some
          { repo_url := repo_url, file_path := fp, start_line := ch.start_line,
            end_line := ch.end_line, content := ch.content,
            symbol_type := ch.symbol_type, symbol_name := ch.symbol_name,
            embedding := emb }
      if db_rows = [] then st
      else
        match addFail with
        | some e =>
          { st with trace := st.trace ++ [db_rows],
                    errors := st.errors ++
                      ["Error adding chunks to database for " ++ fp ++ ": " ++ e] }
        | none =>
          { st with table := st.table ++ db_rows, trace := st.trace ++ [db_rows],
                    added := st.added + db_rows.length }

instance instDecidableEqExcept {ε α : Type} [DecidableEq ε] [DecidableEq α] :
    DecidableEq (Except ε α)
  | Except.error e₁, Except.error e₂ =>
    if h : e₁ = e₂ then Decidable.isTrue (by rw [h])
    else Decidable.isFalse (fun hh => by cases hh; exact h rfl)
  | Except.error _, Except.ok _ => Decidable.isFalse (fun hh => by cases hh)
  | Except.ok _, Except.error _ => Decidable.isFalse (fun hh => by cases hh)
  | Except.ok a₁, Except.ok a₂ =>
    if h : a₁ = a₂ then Decidable.isTrue (by rw [h])
    else Decidable.isFalse (fun hh => by cases hh; exact h rfl)

/-- Result of the indexing-package insertion phase: final table, trace of
`add` calls, recorded error list, accumulated count, and the returned
value (`Except.error` models the raised `VectorDBError`). -/
structure ProcResultIx where
  table : List CodeChunkRowIx
  trace : List (List CodeChunkRowIx)
  errors : List String
  added : Nat
  result : Except IndexErr Nat
  deriving DecidableEq, Repr

/-- The aggregated failure message built at
src/app/indexing/incremental_indexer.py lines 276-280: the first three
errors joined by `"; "`, plus a count of the rest. -/
def aggregateErrors (errors : List String) : String :=
  "Failed to add any chunks to database. Errors: " ++ strJoin "; " (errors.take 3) ++
    (if 3 < errors.length then " and " ++ Nat.repr (errors.length - 3) ++ " more" else "")

/-- `process_and_add_file_chunks` from
src/app/indexing/incremental_indexer.py (lines 161-283): per-file
processing with per-file `add` calls; afterwards, errors with a positive
count are only logged, while errors with a zero count raise one
aggregated `VectorDBError`. -/
def process_and_add_file_chunks_ix (c : CollabIx) (addFail : Option String)
    (t : List CodeChunkRowIx) (repo_url localPath : String) (files : List String) :
    ProcResultIx :=
  if files = [] then ⟨t, [], [], 0, Except.ok 0⟩
  else
    let st := files.foldl (stepIx c addFail repo_url localPath) ⟨t, [], [], 0⟩
    ⟨st.table, st.trace, st.errors, st.added,
      if st.errors ≠ [] ∧ 0 < st.added then Except.ok st.added
      else if st.errors ≠ [] ∧ st.added = 0 then
        Except.error (IndexErr.vectorDBError "chunk_addition" (aggregateErrors st.errors))
      else Except.ok st.added⟩

/-! ## Retriever (src/app/rag_retriever.py) -/

/-- `format_retrieved_chunks` from src/app/rag_retriever.py. -/
def format_retrieved_chunks (chunks : List CodeChunkRow) : String :=
  if chunks = [] then "No relevant code snippets found in the existing codebase."
  else
    (chunks.foldl
      (fun (acc : String × Nat) ch =>
        (acc.1 ++ "\nSnippet " ++ Nat.repr (acc.2 + 1) ++ ": From file `" ++ ch.file_path
          ++ "` (Lines " ++ (if ch.start_line < 0 then "-" else "") ++ Nat.repr ch.start_line.natAbs
          ++ "-" ++ (if ch.end_line < 0 then "-" else "") ++ Nat.repr ch.end_line.natAbs ++ ")\n"
          ++ "```python\n" ++ ch.code_chunk ++ "\n```\n", acc.2 + 1))
      ("\n--- Relevant Code Snippets from the Codebase ---\n", 0)).1
    ++ "--- End of Snippets ---\n"

/-- Environment of `retrieve_relevant_code_chunks`: the vector-store
connection (which may fail), its table names, the rows of the repository
table, the store's opaque similarity ranking, a search-failure flag, the
embedding-model initialization outcome, and `get_embedding` (which
returns `None` on failure). -/
structure RetrieveEnv where
  connFails : Bool
  tableNames : List String
  tableRows : List CodeChunkRow
  rank : List Int → List CodeChunkRow → List CodeChunkRow
  searchFails : Bool
  modelInitFails : Bool
  embed : String → Option (List Int)

/-- The string returned by the catch-all `except` of
`retrieve_relevant_code_chunks`. -/
def retrieveErrorText : String := "Error: Could not retrieve context from the codebase."

/-- `retrieve_relevant_code_chunks` from src/app/rag_retriever.py (lines
27-62): connect, resolve the table name, return `""` when the table is
absent, embed the diff content (`""` when the embedding is `None`), then
search with the `file_path != current` exclusion filter and the `limit`
cap; any raised exception is caught and turned into the error string. -/
def retrieve_relevant_code_chunks (env : RetrieveEnv)
    (repo_url file_path diff_content : String) (limit : Nat) : String :=
  if env.connFails then retrieveErrorText
  else if !(env.tableNames.contains (repo_url_to_table_name repo_url)) then ""
  else if env.modelInitFails then retrieveErrorText
  else
    match env.embed diff_content with
    | none => ""
    | some q =>
      if env.searchFails then retrieveErrorText
      else
        format_retrieved_chunks
          (((env.rank q env.tableRows).filter (fun r => r.file_path != file_path)).take limit)

/-! ## Claim C1 — idempotence of sync -/

/-- Deterministic collaborators for the C1 scenario: one file `a.py`
present in the working copy, one extracted chunk with the deterministic
id `a.py#f#1-2`, a deterministic embedding. -/
def c1Collab : CollabLegacy where
  fs := fun p => if p == "repos/r/a.py" then FileState.readable "def f():\n    pass\n"
    else FileState.missing
  extract := fun fp _ => Except.ok [⟨fp ++ "#f#1-2", fp, "def f():\n    pass", 1, 2⟩]
  embed := fun _ => some [1, 2]

def c1Changed : ChangeSet := ⟨["a.py"], [], []⟩

def c1HappyDelete : DeleteEnv := ⟨false, false, false⟩

/-- First sync run on an empty table with `a.py` classified as added. -/
def c1Run1 : SyncResult :=
  incremental_index_repository_core c1Collab c1HappyDelete false []
    "https://github.com/o/r.git" "repos/r" c1Changed

/-- Second sync run with identical arguments against the resulting table. -/
def c1Run2 : SyncResult :=
  incremental_index_repository_core c1Collab c1HappyDelete false c1Run1.table
    "https://github.com/o/r.git" "repos/r" c1Changed

/-- C1 (code_bug): the deletion phase only covers `deleted + modified`
files, so for a change set whose file is classified as added the second
identical sync run deletes nothing and re-inserts the same deterministic
chunk: the chunk count doubles from 1 to 2, the chunk id `a.py#f#1-2` is
duplicated, and both runs still report success — contradicting the
spec's idempotence requirement, which the claim correctly states. -/
theorem c1_double_sync_duplicates_added_file_chunks :
    c1Run1.table.length = 1 ∧ (c1Run1.table.map CodeChunkRow.id).Nodup ∧
    c1Run2.table.length = 2 ∧ ¬ (c1Run2.table.map CodeChunkRow.id).Nodup ∧
    c1Run1.status = "success" ∧ c1Run2.status = "success" := by
  decide

/-! ## Claim C3 — single-batch write discipline -/

/-- C3 (corrected, amended part): in the legacy
`process_and_add_file_chunks` the `add` trace has exactly one entry —
the concatenation of every successfully produced chunk over all files —
when any chunk was produced, and is empty (with zero additions reported
and the table untouched) otherwise; the count and the table likewise
change only through that single batch. -/
theorem c3_single_batch_amended (c : CollabLegacy) (addFails : Bool)
    (t : List CodeChunkRow) (repo_url localPath : String) (files : List String) :
    (process_and_add_file_chunks c addFails t repo_url localPath files).trace =
      (if files.foldl (fun acc fp => acc ++ chunkRowsForFile c repo_url localPath fp) [] = []
       then []
       else [files.foldl (fun acc fp => acc ++ chunkRowsForFile c repo_url localPath fp) []]) ∧
    (process_and_add_file_chunks c addFails t repo_url localPath files).added =
      (if files.foldl (fun acc fp => acc ++ chunkRowsForFile c repo_url localPath fp) [] = []
          ∨ addFails = true
       then 0
       else (files.foldl (fun acc fp => acc ++ chunkRowsForFile c repo_url localPath fp) []).length) ∧
    (process_and_add_file_chunks c addFails t repo_url localPath files).table =
      (if files.foldl (fun acc fp => acc ++ chunkRowsForFile c repo_url localPath fp) [] = []
          ∨ addFails = true
       then t
       else t ++ files.foldl (fun acc fp => acc ++ chunkRowsForFile c repo_url localPath fp) []) := by
  unfold process_and_add_file_chunks
  by_cases hf : files = []
  · subst hf
    simp
  · simp only [if_neg hf]
    by_cases hall : files.foldl (fun acc fp => acc ++ chunkRowsForFile c repo_url localPath fp) [] = []
    · simp [hall]
    · by_cases haf : addFails = true <;> simp [hall, haf]

/-- Collaborators for the C3 counterexample: every file readable, one
chunk per file, embeddings succeed. -/
def c3Collab : CollabIx where
  fs := fun _ => FileStateIx.readable "code"
  parse := fun _ _ => Except.ok [⟨"def g(): pass", "function", "g", 1, 1⟩]
  embed := fun _ => Except.ok [3]

/-- C3 counterexample: the indexing-package
`process_and_add_file_chunks` issues one `db_table.add` call per file
that produced chunks — with two such files the trace has two entries, so
the claimed "invoked at most once" is false for that variant. -/
theorem c3_per_file_add_counterexample :
    (process_and_add_file_chunks_ix c3Collab none [] "r" "repos/r" ["a.py", "b.py"]).trace.length = 2 ∧
    ¬ ((process_and_add_file_chunks_ix c3Collab none [] "r" "repos/r" ["a.py", "b.py"]).trace.length ≤ 1) := by
  decide

/-! ## Claim C4 — change-set detection error contract -/

/-- C4 counterexample: at a concrete failing diff command, the legacy
`get_changed_files` returns the three empty lists as a normal value — it
does not fail with any error, let alone a `DiffComputationError` (no such
exception exists in the code) — while the indexing-package variant fails
with `RepositoryIndexingError`, so its caller receives an exception and
no lists at all.  Neither variant both fails and hands the caller empty
lists, so the claim as stated is false. -/
theorem c4_error_contract_counterexample :
    get_changed_files (Except.error (PyExc.gitCommandError "fatal: bad revision")) =
      ChangeSet.mk [] [] [] ∧
    get_changed_files_ix "/repos/r"
        (Except.error (PyExc.gitCommandError "fatal: bad revision")) =
      Except.error (IndexErr.repositoryIndexingError "/repos/r"
        "Git command error when getting changed files: fatal: bad revision") :=
  ⟨rfl, rfl⟩

/-- C4 (corrected): whenever the underlying diff command fails, the
legacy `get_changed_files` catches the exception and returns three empty
lists without signalling any error (downstream degrades to
"nothing changed"), while the indexing-package variant raises
`RepositoryIndexingError` — not a `DiffComputationError`, which does not
exist — and its caller receives no lists, aborting the sync instead. -/
theorem c4_error_contract_amended (workingDir msg : String) :
    get_changed_files (Except.error (PyExc.gitCommandError msg)) = ChangeSet.mk [] [] [] ∧
    get_changed_files (Except.error (PyExc.otherError msg)) = ChangeSet.mk [] [] [] ∧
    get_changed_files_ix workingDir (Except.error (PyExc.gitCommandError msg)) =
      Except.error (IndexErr.repositoryIndexingError workingDir
        ("Git command error when getting changed files: " ++ msg)) ∧
    get_changed_files_ix workingDir (Except.error (PyExc.otherError msg)) =
      Except.error (IndexErr.repositoryIndexingError workingDir
        ("Unexpected error when getting changed files: " ++ msg)) :=
  ⟨rfl, rfl, rfl, rfl⟩

/-! ## Claim C7 — total failure versus partial success -/

/-- C7 (confirmed): in the indexing-package `process_and_add_file_chunks`
— the variant that records per-file errors — if errors were recorded and
zero chunks were added, the call fails with one aggregated
`VectorDBError` summarizing the first three causes; if at least one chunk
was added, the call succeeds and returns the partial count even when
errors were recorded for other files. -/
lemma ix_result_total_failure (errs : List String) (n : Nat)
    (hne : errs ≠ []) (hz : n = 0) :
    (if errs ≠ [] ∧ 0 < n then (Except.ok n : Except IndexErr Nat)
     else if errs ≠ [] ∧ n = 0 then
       Except.error (IndexErr.vectorDBError "chunk_addition" (aggregateErrors errs))
     else Except.ok n) =
      Except.error (IndexErr.vectorDBError "chunk_addition" (aggregateErrors errs)) := by
  subst hz
  rw [if_neg (by simp), if_pos ⟨hne, rfl⟩]

lemma ix_result_partial_success (errs : List String) (n : Nat) (hpos : 0 < n) :
    (if errs ≠ [] ∧ 0 < n then (Except.ok n : Except IndexErr Nat)
     else if errs ≠ [] ∧ n = 0 then
       Except.error (IndexErr.vectorDBError "chunk_addition" (aggregateErrors errs))
     else Except.ok n) = Except.ok n := by
  by_cases he : errs ≠ []
  · rw [if_pos ⟨he, hpos⟩]
  · rw [if_neg (fun hc => he hc.1), if_neg (fun hc => he hc.1)]

theorem c7_total_failure_vs_partial_success (c : CollabIx) (addFail : Option String)
    (t : List CodeChunkRowIx) (repo_url localPath : String) (files : List String) :
    ((process_and_add_file_chunks_ix c addFail t repo_url localPath files).errors ≠ [] →
      (process_and_add_file_chunks_ix c addFail t repo_url localPath files).added = 0 →
      (process_and_add_file_chunks_ix c addFail t repo_url localPath files).result =
        Except.error (IndexErr.vectorDBError "chunk_addition"
          (aggregateErrors
            (process_and_add_file_chunks_ix c addFail t repo_url localPath files).errors))) ∧
    (0 < (process_and_add_file_chunks_ix c addFail t repo_url localPath files).added →
      (process_and_add_file_chunks_ix c addFail t repo_url localPath files).result =
        Except.ok (process_and_add_file_chunks_ix c addFail t repo_url localPath files).added) := by
  by_cases hf : files = []
  · subst hf
    have he : (process_and_add_file_chunks_ix c addFail t repo_url localPath []).errors
        = [] := rfl
    have ha : (process_and_add_file_chunks_ix c addFail t repo_url localPath []).added
        = 0 := rfl
    constructor
    · intro hne
      exact absurd he hne
    · intro hpos
      rw [ha] at hpos
      exact absurd hpos (by omega)
  · have hres : (process_and_add_file_chunks_ix c addFail t repo_url localPath files).result =
      (if (process_and_add_file_chunks_ix c addFail t repo_url localPath files).errors ≠ [] ∧
          0 < (process_and_add_file_chunks_ix c addFail t repo_url localPath files).added then
        Except.ok (process_and_add_file_chunks_ix c addFail t repo_url localPath files).added
       else if (process_and_add_file_chunks_ix c addFail t repo_url localPath files).errors ≠ [] ∧
          (process_and_add_file_chunks_ix c addFail t repo_url localPath files).added = 0 then
        Except.error (IndexErr.vectorDBError "chunk_addition"
          (aggregateErrors (process_and_add_file_chunks_ix c addFail t repo_url localPath files).errors))
       else Except.ok (process_and_add_file_chunks_ix c addFail t repo_url localPath files).added) := by
      simp [process_and_add_file_chunks_ix, hf]
    constructor
    · intro hne hz
      rw [hres]
      exact ix_result_total_failure _ _ hne hz
    · intro hpos
      rw [hres]
      exact ix_result_partial_success _ _ hpos

/-- Collaborators for the C7 witness: the one file fails to parse, so an
error is recorded and no chunk is produced. -/
def c7Collab : CollabIx where
  fs := fun _ => FileStateIx.readable "x"
  parse := fun _ _ => Except.error "boom"
  embed := fun _ => Except.ok [1]

/-- Witness for C7: with one failing file, errors were recorded, zero
chunks were added, and the call surfaces the aggregated failure. -/
theorem c7_total_failure_vs_partial_success_witness :
    (process_and_add_file_chunks_ix c7Collab none [] "r" "repos/r" ["a.py"]).result =
      Except.error (IndexErr.vectorDBError "chunk_addition"
        (aggregateErrors
          (process_and_add_file_chunks_ix c7Collab none [] "r" "repos/r" ["a.py"]).errors)) :=
  (c7_total_failure_vs_partial_success c7Collab none [] "r" "repos/r" ["a.py"]).1
    (by decide) (by decide)

/-! ## Claim C9 — retrieval on an unindexed repository -/

/-- C9 (confirmed): `retrieve_relevant_code_chunks` is a total function
(its body is wrapped in a catch-all `except`), and whenever the store
connection succeeds and the repository's table is absent from the store,
it returns the empty string for every file path, query text and limit. -/
theorem c9_retrieve_unindexed_empty (env : RetrieveEnv)
    (repo_url file_path diff_content : String) (limit : Nat)
    (hconn : env.connFails = false)
    (habsent : env.tableNames.contains (repo_url_to_table_name repo_url) = false) :
    retrieve_relevant_code_chunks env repo_url file_path diff_content limit = "" := by
  unfold retrieve_relevant_code_chunks
  rw [hconn, habsent]
  simp

/-- Environment for the C9 witness: reachable store whose only table is
not the one derived from the queried repository URL. -/
def c9Env : RetrieveEnv where
  connFails := false
  tableNames := ["some_other_table"]
  tableRows := []
  rank := fun _ rows => rows
  searchFails := false
  modelInitFails := false
  embed := fun _ => some [0]

/-- Witness for C9 at a concrete URL whose table (`o_r`) is absent. -/
theorem c9_retrieve_unindexed_empty_witness :
    retrieve_relevant_code_chunks c9Env "https://github.com/o/r.git" "a.py" "some diff" 5 = "" :=
  c9_retrieve_unindexed_empty c9Env "https://github.com/o/r.git" "a.py" "some diff" 5
    rfl (by decide)

/-! ## Claim C10 — deletion failures are silently absorbed -/

/-- C10 (confirmed): for every non-empty file path list, if any of the
three store operations of `delete_file_chunks_from_db` (pre-count,
delete, re-count) raises, the exception is caught and the function
returns 0 — the same value as a deletion matching zero chunks — and the
enclosing legacy sync run still reports `status = "success"`. -/
theorem c10_delete_failures_absorbed (denv : DeleteEnv) (t : List CodeChunkRow)
    (repo_url : String) (paths : List String) (c : CollabLegacy) (addFails : Bool)
    (localPath : String) (changed : ChangeSet)
    (hne : paths ≠ [])
    (hfail : denv.countBeforeFails = true ∨ denv.deleteFails = true ∨
      denv.countAfterFails = true) :
    (delete_file_chunks_from_db denv t repo_url paths).2 = 0 ∧
    (incremental_index_repository_core c denv addFails t repo_url localPath changed).status =
      "success" := by
  constructor
  · rcases hfail with h | h | h <;>
      by_cases hb : denv.countBeforeFails = true <;>
      by_cases hd : denv.deleteFails = true <;>
      simp [delete_file_chunks_from_db, hne, h, hb, hd]
  · rfl

def c10Env : DeleteEnv := ⟨false, true, false⟩

def c10Row : CodeChunkRow := ⟨"a.py#f#1-2", "r", "a.py", "def f(): pass", [1], 1, 2⟩

def c10Collab : CollabLegacy :=
  ⟨fun _ => FileState.missing, fun _ _ => Except.ok [], fun _ => none⟩

/-- Witness for C10: the delete raises, the function returns 0, and the
sync run reports success. -/
theorem c10_delete_failures_absorbed_witness :
    (delete_file_chunks_from_db c10Env [c10Row] "r" ["a.py"]).2 = 0 ∧
    (incremental_index_repository_core c10Collab c10Env false [c10Row] "r" "repos/r"
      (ChangeSet.mk [] [] ["a.py"])).status = "success" :=
  c10_delete_failures_absorbed c10Env [c10Row] "r" ["a.py"] c10Collab false "repos/r"
    (ChangeSet.mk [] [] ["a.py"]) (by decide) (Or.inr (Or.inl rfl))
